import Mathlib

/-
Shallow embedding of the seed-fe-request layer: a name-keyed registry of
axios instances, interceptor-shape normalization, and the request dispatch
wrapper with one-shot interceptor attach/eject and error-handler policy.
User-supplied callbacks are opaque and tagged by natural numbers; the axios
interceptor manager is modelled as its handlers array (use pushes and
returns the index, eject nulls the slot in place).
-/

namespace SeedFeRequest

/-- A callback value that can be registered on an interceptor chain: a
user-supplied function (tagged by a number), the default rethrow
`(error) => Promise.reject(error)` substituted for a missing onError, or a
non-function value (an object passed where a function was expected, which
axios `use` still accepts and stores). -/
inductive Callback where
  | user (n : Nat)
  | rethrow
  | nonFunction
deriving DecidableEq

/-- One entry of an axios interceptor chain: `use(fulfilled, rejected)`
stores this pair; `rejected` is absent when `use` was called with one
argument. -/
structure HandlerPair where
  fulfilled : Callback
  rejected : Option Callback
deriving DecidableEq

/-- The axios interceptor manager's handlers array; `eject` sets a slot to
null (here `none`) without shortening the array. -/
abbrev Chain := List (Option HandlerPair)

/-- axios `InterceptorManager.use`: push the handler pair, return its index. -/
def chainUse (c : Chain) (ful : Callback) (rej : Option Callback) : Chain × Int :=
  (c ++ [some ⟨ful, rej⟩], (c.length : Int))

/-- axios `InterceptorManager.eject(id)`: `if (this.handlers[id]) this.handlers[id] = null;`.
Out-of-range or negative ids and already-null slots are left untouched. -/
def eject (c : Chain) (id : Int) : Chain :=
  if 0 ≤ id then
    match c.get? id.toNat with
    | some (some _) => c.set id.toNat none
    | _ => c
  else c

/-- Sentinel returned when an interceptor declaration registers nothing. -/
def INVALID_INTERCEPTOR_ID : Int := -1

/-- The runtime shapes an interceptor declaration can take, as the source
distinguishes them: bare function, one- or two-element tuple, an object
whose `onConfig` key is present (holding a function or `undefined`), or an
object without the `onConfig` key (the `in` test at the object branch is a
key-presence test, so such an object falls through to the bare-function
branch). -/
inductive Shape where
  | func (n : Nat)
  | tuple1 (n : Nat)
  | tuple2 (n e : Nat)
  | objWithKey (onConfig : Option Nat) (onError : Option Nat)
  | objNoKey (onError : Option Nat)
deriving DecidableEq

/-- `handleRequestInterceptor` from the source: object branch first
(key-presence test on `onConfig`, `onError ?? rethrow` as the second
callback, sentinel when `onConfig` is falsy), then the array branch
(length-2 tuple registers both callbacks, otherwise only the head), then
the bare-function branch (which also catches objects lacking the
`onConfig` key and registers them as-is). -/
def handleRequestInterceptor (c : Chain) (i : Shape) : Chain × Int :=
  match i with
  | .objWithKey oc oe =>
      match oc with
      | some f => chainUse c (.user f)
          (some (match oe with | some e2 => .user e2 | none => .rethrow))
      | none => (c, INVALID_INTERCEPTOR_ID)
  | .objNoKey _ => chainUse c .nonFunction none
  | .tuple2 n e2 => chainUse c (.user n) (some (.user e2))
  | .tuple1 n => chainUse c (.user n) none
  | .func n => chainUse c (.user n) none

/-- `handleResponseInterceptor` from the source: its body is textually
identical to `handleRequestInterceptor` apart from targeting the response
chain, which here is passed in as the `Chain` argument. -/
def handleResponseInterceptor : Chain → Shape → Chain × Int :=
  handleRequestInterceptor

/-- Instance names: the `Symbol.for('default')` sentinel or a string. -/
inductive IName where
  | defaultName
  | str (s : String)
deriving DecidableEq

/-- `DEFAULT_INSTANCE_NAME = Symbol.for('default')`. -/
def DEFAULT_INSTANCE_NAME : IName := .defaultName

/-- `errorConfig` object: the optional `errorHandler` callback (tagged). The
`errorThrower` field is never read by the dispatcher and is omitted. -/
structure ErrorConfig where
  errorHandler : Option Nat := none
deriving DecidableEq

/-- `interceptors.request` / `interceptors.response` accept a single
declaration or an array of declarations (`Array.isArray` test). -/
inductive InterceptorField where
  | single (i : Shape)
  | list (l : List Shape)
deriving DecidableEq

/-- The nested `interceptors` configuration object. -/
structure InterceptorsCfg where
  request : Option InterceptorField := none
  response : Option InterceptorField := none
deriving DecidableEq

/-- `CustomRequestConfig`, restricted to the fields the dispatcher and the
registry read. Native transport options are passed through verbatim and
play no role in the verified control flow. -/
structure Config where
  instanceName : Option IName := none
  skipErrorHandler : Option Bool := none
  withFullResponse : Option Bool := none
  errorConfig : Option ErrorConfig := none
  interceptors : Option InterceptorsCfg := none
  requestInterceptors : Option (List Shape) := none
  responseInterceptors : Option (List Shape) := none
deriving DecidableEq

/-- A configured axios instance: `axios.create(config)` stores the
configuration as `defaults` and starts with empty interceptor chains. -/
structure AxiosInstance where
  defaults : Config
  reqChain : Chain := []
  respChain : Chain := []
deriving DecidableEq

/-- `instanceMap`: a JS Map, modelled as an insertion-ordered association
list. -/
abbrev Registry := List (IName × AxiosInstance)

/-- `instanceMap.has`. -/
def regHas : Registry → IName → Bool
  | [], _ => false
  | (m, _) :: rest, n => if m = n then true else regHas rest n

/-- `instanceMap.get` (also the `entries().find` lookup used for defaults). -/
def regGet : Registry → IName → Option AxiosInstance
  | [], _ => none
  | (m, v) :: rest, n => if m = n then some v else regGet rest n

/-- `instanceMap.set`: replace in place if the key exists, else append. -/
def regSet : Registry → IName → AxiosInstance → Registry
  | [], n, v => [(n, v)]
  | (m, w) :: rest, n, v => if m = n then (m, v) :: rest else (m, w) :: regSet rest n v

/-- `instanceMap.size`. -/
def regSize (reg : Registry) : Nat := reg.length

/-- JS truthiness of an optional boolean field (`undefined` and `false` are
falsy). -/
def truthy : Option Bool → Bool
  | some true => true
  | _ => false

/-- JS falsiness of `config.instanceName`: `undefined` and the empty string
are falsy; symbols and non-empty strings are truthy. -/
def nameFalsy : Option IName → Bool
  | none => true
  | some (.str s) => s == ""
  | some .defaultName => false

/-- `config.instanceName ?? DEFAULT_INSTANCE_NAME`. -/
def resolveName (n : Option IName) : IName := n.getD DEFAULT_INSTANCE_NAME

/-- `Array.isArray(x) ? x : [x]` normalization of an interceptor field. -/
def normalizeField : InterceptorField → List Shape
  | .single i => [i]
  | .list l => l

/-- The request-side declarations walked by `addInterceptorsToInstance`, in
source order: nested `interceptors.request` first, then the deprecated flat
`requestInterceptors` list. -/
def reqShapeList (cfg : Config) : List Shape :=
  (match cfg.interceptors with
   | some ic =>
       match ic.request with
       | some f => normalizeField f
       | none => []
   | none => []) ++ cfg.requestInterceptors.getD []

/-- The response-side declarations walked by `addInterceptorsToInstance`, in
source order: nested `interceptors.response` first, then the deprecated
flat `responseInterceptors` list. -/
def respShapeList (cfg : Config) : List Shape :=
  (match cfg.interceptors with
   | some ic =>
       match ic.response with
       | some f => normalizeField f
       | none => []
   | none => []) ++ cfg.responseInterceptors.getD []

/-- The per-declaration loop body shared by the four `forEach` loops of
`addInterceptorsToInstance`: register each declaration and, when the
one-time flag is set, collect the id unless it is the invalid sentinel. -/
def processShapes (handle : Chain → Shape → Chain × Int) (c : Chain)
    (shapes : List Shape) (isOneTime : Bool) : Chain × List Int :=
  match shapes with
  | [] => (c, [])
  | s :: rest =>
      let h := handle c s
      let r := processShapes handle h.1 rest isOneTime
      (r.1, (if h.2 != INVALID_INTERCEPTOR_ID && isOneTime then [h.2] else []) ++ r.2)

/-- `addInterceptorsToInstance(instance, config, isOneTime)`: walk the
request-side and response-side declarations, returning the updated
instance and the two ordered id lists (request-side, response-side);
ids are collected only in one-time mode. -/
def addInterceptorsToInstance (inst : AxiosInstance) (cfg : Config)
    (isOneTime : Bool) : AxiosInstance × List Int × List Int :=
  let r := processShapes handleRequestInterceptor inst.reqChain (reqShapeList cfg) isOneTime
  let s := processShapes handleResponseInterceptor inst.respChain (respShapeList cfg) isOneTime
  ({ inst with reqChain := r.1, respChain := s.1 }, r.2, s.2)

/-- The errors `defineRequestConfig` can throw. -/
inductive RegError where
  | duplicate (name : IName)
  | defaultExistsNameRequired
deriving DecidableEq

/-- Outcome of one registration step: success (with the possibly-updated
registry and whether the warn-and-ignore branch ran) or a thrown error. -/
inductive DefineOutcome where
  | ok (reg : Registry) (warned : Bool)
  | err (e : RegError)
deriving DecidableEq

/-- `axios.create(config)` followed by the non-ephemeral
`addInterceptorsToInstance(instance, config)` call of registration. -/
def createInstance (cfg : Config) : AxiosInstance :=
  (addInterceptorsToInstance { defaults := cfg } cfg false).1

/-- The loop body of `defineRequestConfig` for one configuration: resolve
the name, check for duplicates (the warn-and-ignore branch fires only when
the map contains the name AND is empty), check the unnamed-after-default
case, else create, attach permanent interceptors and store. The boolean in
the success case records whether the warn-and-ignore branch ran. -/
def defineOne (reg : Registry) (cfg : Config) : DefineOutcome :=
  let name := resolveName cfg.instanceName
  if regHas reg name then
    if name = DEFAULT_INSTANCE_NAME ∧ regSize reg = 0 then
      .ok reg true
    else
      .err (.duplicate name)
  else if nameFalsy cfg.instanceName && regHas reg DEFAULT_INSTANCE_NAME then
    .err .defaultExistsNameRequired
  else
    .ok (regSet reg name (createInstance cfg)) false

/-- Whether a `defineOne` call took the warn-and-ignore branch. -/
def defineOneWarned (reg : Registry) (cfg : Config) : Bool :=
  match defineOne reg cfg with
  | .ok _ w => w
  | .err _ => false

/-- `defineRequestConfig(configs)`: iterate the (normalized) configuration
array; a throw aborts the remaining iterations but keeps the registry
mutations of the earlier ones. Returns the registry together with the
error, if one was thrown. -/
def defineRequestConfig : Registry → List Config → Registry × Option RegError
  | reg, [] => (reg, none)
  | reg, c :: rest =>
      match defineOne reg c with
      | .ok reg2 _ => defineRequestConfig reg2 rest
      | .err e2 => (reg, some e2)

/-- The errors a `request` call can reject with. -/
inductive RError where
  | notFound (name : IName)
  | transport (e : Nat)
deriving DecidableEq

/-- `getRequestInstance(instanceName?)`: look up the instance under
`instanceName ?? DEFAULT_INSTANCE_NAME`, throwing not-found when absent. -/
def getRequestInstance (reg : Registry) (instanceName : Option IName) :
    Except RError AxiosInstance :=
  match regGet reg (resolveName instanceName) with
  | some inst => .ok inst
  | none => .error (.notFound (resolveName instanceName))

/-- The merged configuration built by `request()`: spread of the call-level
configuration with `withFullResponse` overridden — explicit call-level
value (defined, even if `false`) wins, else the instance default. -/
def mergeCfg (cfg : Config) (instanceConfig : Option Config) : Config :=
  { cfg with withFullResponse :=
      match cfg.withFullResponse with
      | some b => some b
      | none => instanceConfig.bind (fun c => c.withFullResponse) }

/-- A response from the underlying transport (headers kept abstract). -/
structure Response where
  status : Nat
  headers : Nat
  data : Nat
deriving DecidableEq

/-- The outcome of the underlying `instance.request(mergedConfig)` call,
supplied as an oracle parameter to the dispatcher model. -/
inductive TransportOutcome where
  | ok (r : Response)
  | err (e : Nat)
deriving DecidableEq

/-- What a successful `request` call resolves to. -/
inductive Value where
  | fullResponse (r : Response)
  | dataOnly (d : Nat)
deriving DecidableEq

/-- The settled outcome of a `request` call. -/
inductive ReqResult where
  | resolved (v : Value)
  | rejected (e : RError)
deriving DecidableEq

/-- Which errorHandler was invoked. -/
inductive HandlerLevel where
  | callLevel
  | instanceLevel
deriving DecidableEq

/-- One observed `errorHandler(error, { config: mergedConfig })` invocation. -/
structure HandlerCall where
  level : HandlerLevel
  fn : Nat
  error : RError
  cfg : Config
deriving DecidableEq

/-- The observable trace of one `request` call: the settled result, the
registry (with the target instance's chains as left after the call), and
the errorHandler invocations in order. -/
structure RequestTrace where
  result : ReqResult
  registry : Registry
  handlerCalls : List HandlerCall
deriving DecidableEq

/-- The `catch` block of `request()`: rethrow immediately when the raw
call-level `skipErrorHandler` is truthy; otherwise re-look-up the instance
defaults, rebuild the merged configuration, invoke the call-level
errorHandler if present, else the instance-level one if present, then
rethrow the original error. -/
def handleCatch (reg : Registry) (cfg : Config) (err : RError) : RequestTrace :=
  if truthy cfg.skipErrorHandler then
    { result := .rejected err, registry := reg, handlerCalls := [] }
  else
    let instanceConfig := (regGet reg (resolveName cfg.instanceName)).map (fun i => i.defaults)
    let mergedConfig := mergeCfg cfg instanceConfig
    let calls : List HandlerCall :=
      match cfg.errorConfig.bind (fun ec => ec.errorHandler) with
      | some f => [⟨.callLevel, f, err, mergedConfig⟩]
      | none =>
          match instanceConfig.bind (fun c => c.errorConfig.bind (fun ec => ec.errorHandler)) with
          | some g => [⟨.instanceLevel, g, err, mergedConfig⟩]
          | none => []
    { result := .rejected err, registry := reg, handlerCalls := calls }

/-- The `finally` block of `request()`: eject every captured one-shot id,
request-side ids first, then response-side ids. -/
def ejectAllIds (inst : AxiosInstance) (reqIds respIds : List Int) : AxiosInstance :=
  { inst with reqChain := reqIds.foldl eject inst.reqChain,
              respChain := respIds.foldl eject inst.respChain }

/-- `request(config)`: resolve and look up the instance (a not-found throw
falls into the same catch block), merge configurations, attach one-shot
interceptors, run the transport, eject the one-shot ids in a guaranteed
cleanup step, then either resolve (full envelope or payload, per the
merged flag) or run the catch block. -/
def request (reg : Registry) (cfg : Config) (t : TransportOutcome) : RequestTrace :=
  match getRequestInstance reg (some (resolveName cfg.instanceName)) with
  | .error e2 => handleCatch reg cfg e2
  | .ok inst =>
      let mergedConfig := mergeCfg cfg (some inst.defaults)
      let added := addInterceptorsToInstance inst mergedConfig true
      let instAfter := ejectAllIds added.1 added.2.1 added.2.2
      let regAfter := regSet reg (resolveName cfg.instanceName) instAfter
      match t with
      | .ok resp =>
          { result := .resolved (if truthy mergedConfig.withFullResponse
                                 then .fullResponse resp
                                 else .dataOnly resp.data),
            registry := regAfter,
            handlerCalls := [] }
      | .err e2 => handleCatch regAfter cfg (.transport e2)

/-- The interceptors still active on a chain (the non-null slots), i.e.
what axios actually runs a request through. -/
def activeHandlers (c : Chain) : List HandlerPair := c.filterMap id

/-- Consecutive chain indices starting at `m`, as `Int` ids. -/
def idsFrom (m : Nat) : Nat → List Int
  | 0 => []
  | k+1 => (m : Int) :: idsFrom (m+1) k

def c2cfg : Config := { errorConfig := some { errorHandler := some 7 } }

def regWithDefault : Registry := (defineRequestConfig [] [{}]).1

/-- Registered default-instance configuration used by the witnesses. -/
def wDefCfg : Config :=
  { withFullResponse := some true, skipErrorHandler := some true,
    errorConfig := some { errorHandler := some 9 } }

/-- Registry holding the default instance built from `wDefCfg`. -/
def wReg : Registry := (defineRequestConfig [] [wDefCfg]).1

/-- The instance stored in `wReg`. -/
def wInst : AxiosInstance := createInstance wDefCfg

/-- Call-level configuration carrying ephemeral interceptors of several
shapes. -/
def wEphemCfg : Config :=
  { interceptors := some { request := some (.list [.func 1, .objWithKey none none]),
                           response := some (.single (.objWithKey (some 4) none)) },
    requestInterceptors := some [.tuple2 2 3] }

/-- Named configuration used by the C8 witness. -/
def wNamedCfg : Config := { instanceName := some (.str "a") }

/-- Registry holding the named instance built from `wNamedCfg`. -/
def wNamedReg : Registry := (defineRequestConfig [] [wNamedCfg]).1

/-- Call-level configuration with an errorHandler, used by the C10 witness. -/
def wC10Cfg : Config := { errorConfig := some { errorHandler := some 5 } }

theorem handleRequestInterceptor_spec (c : Chain) (s : Shape) :
    handleRequestInterceptor c s = (c, INVALID_INTERCEPTOR_ID) ∨
    ∃ p, handleRequestInterceptor c s = (c ++ [some p], (c.length : Int)) := by
  cases s with
  | func n => exact Or.inr ⟨⟨.user n, none⟩, rfl⟩
  | tuple1 n => exact Or.inr ⟨⟨.user n, none⟩, rfl⟩
  | tuple2 n e2 => exact Or.inr ⟨⟨.user n, some (.user e2)⟩, rfl⟩
  | objNoKey oe => exact Or.inr ⟨⟨.nonFunction, none⟩, rfl⟩
  | objWithKey oc oe =>
      cases oc with
      | none => exact Or.inl rfl
      | some f =>
          cases oe with
          | none => exact Or.inr ⟨⟨.user f, some .rethrow⟩, rfl⟩
          | some e2 => exact Or.inr ⟨⟨.user f, some (.user e2)⟩, rfl⟩

theorem natCast_ne_invalid (n : Nat) :
    (((n : Int) != INVALID_INTERCEPTOR_ID) && true) = true := by
  simp [INVALID_INTERCEPTOR_ID]

theorem processShapes_structure (shapes : List Shape) (c : Chain) :
    ∃ ps : List HandlerPair,
      processShapes handleRequestInterceptor c shapes true =
        (c ++ ps.map some, idsFrom c.length ps.length) := by
  induction shapes generalizing c with
  | nil => exact ⟨[], by simp [processShapes, idsFrom]⟩
  | cons s rest ih =>
      rcases handleRequestInterceptor_spec c s with h | ⟨p, h⟩
      · obtain ⟨ps, hr⟩ := ih c
        refine ⟨ps, ?_⟩
        simp only [processShapes, h, hr]
        simp [INVALID_INTERCEPTOR_ID]
      · obtain ⟨ps, hr⟩ := ih (c ++ [some p])
        refine ⟨p :: ps, ?_⟩
        simp only [processShapes, h, hr]
        rw [natCast_ne_invalid]
        simp [idsFrom, List.length_append]

theorem get?_append_len (c : Chain) (x : Option HandlerPair) (r : Chain) :
    (c ++ x :: r).get? c.length = some x := by
  induction c with
  | nil => rfl
  | cons a c ih => simpa using ih

theorem set_append_len (c : Chain) (x y : Option HandlerPair) (r : Chain) :
    (c ++ x :: r).set c.length y = c ++ y :: r := by
  induction c with
  | nil => rfl
  | cons a c ih => simp [List.set, ih]

theorem eject_append_some (c : Chain) (p : HandlerPair) (r : Chain) :
    eject (c ++ some p :: r) (c.length : Int) = c ++ none :: r := by
  unfold eject
  rw [if_pos (by omega)]
  simp only [Int.toNat_natCast, get?_append_len, set_append_len]

theorem foldl_eject_idsFrom (ps : List HandlerPair) (c : Chain) :
    (idsFrom c.length ps.length).foldl eject (c ++ ps.map some) =
      c ++ List.replicate ps.length none := by
  induction ps generalizing c with
  | nil => simp [idsFrom]
  | cons p ps ih =>
      simp only [List.map_cons, List.length_cons, idsFrom, List.foldl_cons]
      rw [eject_append_some]
      have h1 : c ++ (none : Option HandlerPair) :: ps.map some
          = (c ++ [none]) ++ ps.map some := by simp
      have h2 : c.length + 1 = (c ++ [(none : Option HandlerPair)]).length := by simp
      rw [h1, h2, ih (c ++ [none])]
      simp [List.replicate_succ]

theorem activeHandlers_append_replicate (c : Chain) (k : Nat) :
    activeHandlers (c ++ List.replicate k none) = activeHandlers c := by
  simp [activeHandlers]

theorem process_then_eject (shapes : List Shape) (c : Chain) :
    activeHandlers
      ((processShapes handleRequestInterceptor c shapes true).2.foldl eject
        (processShapes handleRequestInterceptor c shapes true).1) =
      activeHandlers c := by
  obtain ⟨ps, h⟩ := processShapes_structure shapes c
  rw [h]
  show activeHandlers ((idsFrom c.length ps.length).foldl eject (c ++ ps.map some))
      = activeHandlers c
  rw [foldl_eject_idsFrom]
  exact activeHandlers_append_replicate c ps.length

theorem regGet_regSet_self (reg : Registry) (n : IName) (v : AxiosInstance) :
    regGet (regSet reg n v) n = some v := by
  induction reg with
  | nil => simp [regSet, regGet]
  | cons a rest ih =>
      by_cases h : a.1 = n
      · simp [regSet, regGet, h]
      · simp [regSet, regGet, h, ih]

theorem handleCatch_registry (reg : Registry) (cfg : Config) (e : RError) :
    (handleCatch reg cfg e).registry = reg := by
  unfold handleCatch
  split <;> rfl

theorem handleCatch_result (reg : Registry) (cfg : Config) (e : RError) :
    (handleCatch reg cfg e).result = .rejected e := by
  unfold handleCatch
  split <;> rfl

theorem resolveName_some (n : IName) : resolveName (some n) = n := rfl

/-- After the try-block ran (instance found), the final registry maps the
resolved name to the post-cleanup instance, whose chains are the original
ones extended by nulled slots. -/
theorem request_found_registry (reg : Registry) (cfg : Config) (t : TransportOutcome)
    (inst : AxiosInstance)
    (h : regGet reg (resolveName cfg.instanceName) = some inst) :
    (request reg cfg t).registry =
      regSet reg (resolveName cfg.instanceName)
        (ejectAllIds (addInterceptorsToInstance inst (mergeCfg cfg (some inst.defaults)) true).1
          (addInterceptorsToInstance inst (mergeCfg cfg (some inst.defaults)) true).2.1
          (addInterceptorsToInstance inst (mergeCfg cfg (some inst.defaults)) true).2.2) := by
  unfold request getRequestInstance
  rw [resolveName_some, h]
  cases t with
  | ok resp => rfl
  | err e2 => simp [handleCatch_registry]

/-- C1: after any completed call through request() on a registered
instance, the active interceptors on both chains are exactly those present
before the call. -/
theorem C1_chains_restored (reg : Registry) (cfg : Config) (t : TransportOutcome)
    (inst : AxiosInstance)
    (h : regGet reg (resolveName cfg.instanceName) = some inst) :
    ∃ inst2, regGet (request reg cfg t).registry (resolveName cfg.instanceName) = some inst2 ∧
      activeHandlers inst2.reqChain = activeHandlers inst.reqChain ∧
      activeHandlers inst2.respChain = activeHandlers inst.respChain := by
  rw [request_found_registry reg cfg t inst h, regGet_regSet_self]
  refine ⟨_, rfl, ?_, ?_⟩
  · show activeHandlers
        ((addInterceptorsToInstance inst (mergeCfg cfg (some inst.defaults)) true).2.1.foldl eject
          (addInterceptorsToInstance inst (mergeCfg cfg (some inst.defaults)) true).1.reqChain)
        = activeHandlers inst.reqChain
    simp only [addInterceptorsToInstance]
    exact process_then_eject (reqShapeList (mergeCfg cfg (some inst.defaults))) inst.reqChain
  · show activeHandlers
        ((addInterceptorsToInstance inst (mergeCfg cfg (some inst.defaults)) true).2.2.foldl eject
          (addInterceptorsToInstance inst (mergeCfg cfg (some inst.defaults)) true).1.respChain)
        = activeHandlers inst.respChain
    simp only [addInterceptorsToInstance]
    exact process_then_eject (respShapeList (mergeCfg cfg (some inst.defaults))) inst.respChain

theorem ejectAllIds_defaults (i : AxiosInstance) (a b : List Int) :
    (ejectAllIds i a b).defaults = i.defaults := rfl

theorem addInterceptors_defaults (i : AxiosInstance) (m : Config) (o : Bool) :
    (addInterceptorsToInstance i m o).1.defaults = i.defaults := rfl

/-- Characterization of the trace of a transport-failing call on a
registered instance: the rejection is the original transport error, and the
handler invocations follow the skip flag and the call-level-first policy. -/
theorem request_err_trace (reg : Registry) (cfg : Config) (e2 : Nat) (inst : AxiosInstance)
    (h1 : regGet reg (resolveName cfg.instanceName) = some inst) :
    (request reg cfg (.err e2)).result = .rejected (.transport e2) ∧
    (request reg cfg (.err e2)).handlerCalls =
      (if truthy cfg.skipErrorHandler then []
       else
         match cfg.errorConfig.bind (fun ec => ec.errorHandler) with
         | some f => [⟨.callLevel, f, .transport e2, mergeCfg cfg (some inst.defaults)⟩]
         | none =>
             match inst.defaults.errorConfig.bind (fun ec => ec.errorHandler) with
             | some g => [⟨.instanceLevel, g, .transport e2, mergeCfg cfg (some inst.defaults)⟩]
             | none => []) := by
  unfold request getRequestInstance
  rw [resolveName_some, h1]
  constructor
  · simp [handleCatch_result]
  · simp only [handleCatch, regGet_regSet_self, ejectAllIds_defaults, addInterceptors_defaults,
      Option.map_some, Option.bind_some]
    split
    · rfl
    · rfl

theorem resolveName_none : resolveName none = DEFAULT_INSTANCE_NAME := rfl

theorem regHas_size_pos (reg : Registry) (n : IName) (h : regHas reg n = true) :
    0 < regSize reg := by
  cases reg with
  | nil => simp [regHas] at h
  | cons a rest => simp [regSize]

/-- C2 (amended): a not-found lookup always rejects the call with the
not-found error, but the error is handed to the call-level errorHandler
when one exists and skipErrorHandler is not set; the instance-level handler
is never invoked in this situation. -/
theorem C2_notFound_policy (reg : Registry) (cfg : Config) (t : TransportOutcome)
    (h : regGet reg (resolveName cfg.instanceName) = none) :
    (request reg cfg t).result = .rejected (.notFound (resolveName cfg.instanceName)) ∧
    (request reg cfg t).handlerCalls =
      (if truthy cfg.skipErrorHandler then []
       else
         match cfg.errorConfig.bind (fun ec => ec.errorHandler) with
         | some f => [⟨.callLevel, f, .notFound (resolveName cfg.instanceName), mergeCfg cfg none⟩]
         | none => []) := by
  unfold request getRequestInstance
  rw [resolveName_some, h]
  constructor
  · exact handleCatch_result reg cfg _
  · simp only [handleCatch, h, Option.map_none, Option.bind_none]
    split
    · rfl
    · split <;> rfl

/-- C2 (counterexample): with an empty registry and a call-level
errorHandler, the not-found error IS passed to that handler before being
rethrown, contradicting the claim that no handler is ever invoked with it. -/
theorem C2_counterexample :
    (request [] c2cfg (.ok ⟨200, 0, 1⟩)).handlerCalls
      = [⟨.callLevel, 7, .notFound DEFAULT_INSTANCE_NAME, c2cfg⟩] ∧
    (request [] c2cfg (.ok ⟨200, 0, 1⟩)).result
      = .rejected (.notFound DEFAULT_INSTANCE_NAME) := by
  exact ⟨rfl, rfl⟩

theorem C2_witness :
    (request [] c2cfg (.ok ⟨200, 0, 1⟩)).result
      = .rejected (.notFound (resolveName c2cfg.instanceName)) ∧
    (request [] c2cfg (.ok ⟨200, 0, 1⟩)).handlerCalls =
      (if truthy c2cfg.skipErrorHandler then []
       else
         match c2cfg.errorConfig.bind (fun ec => ec.errorHandler) with
         | some f => [⟨.callLevel, f, .notFound (resolveName c2cfg.instanceName), mergeCfg c2cfg none⟩]
         | none => []) :=
  C2_notFound_policy [] c2cfg (.ok ⟨200, 0, 1⟩) rfl

/-- C3: once the default instance is registered, a second unnamed
registration throws the duplicate-instance error instead of the documented
silent warn-and-ignore; the warn branch requires the map to contain the
name while having size zero, so it can never run. -/
theorem C3_dead_warn_branch :
    defineOne regWithDefault {} = .err (.duplicate DEFAULT_INSTANCE_NAME) ∧
    ∀ reg cfg, defineOneWarned reg cfg = false := by
  constructor
  · rfl
  · intro reg cfg
    unfold defineOneWarned defineOne
    by_cases h1 : regHas reg (resolveName cfg.instanceName) = true
    · have h2 : ¬(resolveName cfg.instanceName = DEFAULT_INSTANCE_NAME ∧ regSize reg = 0) := by
        rintro ⟨-, hz⟩
        have := regHas_size_pos reg (resolveName cfg.instanceName) h1
        omega
      simp [h1, h2]
    · simp only [Bool.not_eq_true] at h1
      simp only [h1, Bool.false_eq_true, if_false]
      by_cases h3 : (nameFalsy cfg.instanceName && regHas reg DEFAULT_INSTANCE_NAME) = true <;>
        simp [h3]

theorem request_ok_result (reg : Registry) (cfg : Config) (resp : Response)
    (inst : AxiosInstance)
    (h : regGet reg (resolveName cfg.instanceName) = some inst) :
    (request reg cfg (.ok resp)).result = .resolved
      (if truthy (mergeCfg cfg (some inst.defaults)).withFullResponse
       then .fullResponse resp
       else .dataOnly resp.data) := by
  unfold request getRequestInstance
  rw [resolveName_some, h]

/-- C4: on success the resolved value obeys the merged full-response flag —
an explicitly defined call-level withFullResponse (true or false) wins,
otherwise the instance default applies; a truthy flag yields the full
envelope, anything else just the payload. -/
theorem C4_withFullResponse (reg : Registry) (cfg : Config) (resp : Response)
    (inst : AxiosInstance)
    (h : regGet reg (resolveName cfg.instanceName) = some inst) :
    (request reg cfg (.ok resp)).result = .resolved
      (if truthy (match cfg.withFullResponse with
                  | some b => some b
                  | none => inst.defaults.withFullResponse)
       then .fullResponse resp
       else .dataOnly resp.data) := by
  rw [request_ok_result reg cfg resp inst h]
  cases hw : cfg.withFullResponse <;> simp [mergeCfg, hw]

/-- C5 (amended): exhaustive behaviour of the interceptor normalizer: bare
function and one-element tuple register one success callback; a two-element
tuple registers success and error; an object with a function onConfig
registers onConfig plus onError or the default rethrow; an object whose
onConfig key is present but undefined registers nothing and yields the
sentinel; an object lacking the onConfig key altogether falls through to
the bare-function branch and is registered as-is; the response-side handler
is the same algorithm. -/
theorem C5_normalizer (c : Chain) (n e2 : Nat) :
    handleRequestInterceptor c (.func n) = (c ++ [some ⟨.user n, none⟩], (c.length : Int)) ∧
    handleRequestInterceptor c (.tuple2 n e2)
      = (c ++ [some ⟨.user n, some (.user e2)⟩], (c.length : Int)) ∧
    handleRequestInterceptor c (.tuple1 n) = (c ++ [some ⟨.user n, none⟩], (c.length : Int)) ∧
    handleRequestInterceptor c (.objWithKey (some n) (some e2))
      = (c ++ [some ⟨.user n, some (.user e2)⟩], (c.length : Int)) ∧
    handleRequestInterceptor c (.objWithKey (some n) none)
      = (c ++ [some ⟨.user n, some .rethrow⟩], (c.length : Int)) ∧
    handleRequestInterceptor c (.objWithKey none (some e2)) = (c, INVALID_INTERCEPTOR_ID) ∧
    handleRequestInterceptor c (.objNoKey (some e2))
      = (c ++ [some ⟨.nonFunction, none⟩], (c.length : Int)) ∧
    handleResponseInterceptor = handleRequestInterceptor :=
  ⟨rfl, rfl, rfl, rfl, rfl, rfl, rfl, rfl⟩

/-- C5 (counterexample): an object-shape declaration lacking the onConfig
key registers an entry on the chain and yields a real identifier, not the
sentinel. -/
theorem C5_counterexample :
    handleRequestInterceptor [] (.objNoKey (some 3))
      = ([some ⟨.nonFunction, none⟩], 0) ∧
    (handleRequestInterceptor [] (.objNoKey (some 3))).2 ≠ INVALID_INTERCEPTOR_ID := by
  exact ⟨rfl, by decide⟩

/-- C6: with skipErrorHandler set at call level, a failing call rejects
with the original transport error and no errorHandler is invoked. -/
theorem C6_skip (reg : Registry) (cfg : Config) (e2 : Nat) (inst : AxiosInstance)
    (h1 : cfg.skipErrorHandler = some true)
    (h2 : regGet reg (resolveName cfg.instanceName) = some inst) :
    (request reg cfg (.err e2)).result = .rejected (.transport e2) ∧
    (request reg cfg (.err e2)).handlerCalls = [] := by
  obtain ⟨hr, hc⟩ := request_err_trace reg cfg e2 inst h2
  refine ⟨hr, ?_⟩
  rw [hc, h1]
  rfl

/-- C7: a failing call that does not skip error handling invokes the
call-level errorHandler exactly once with the error and the merged
configuration (the instance-level one is skipped), falls back to the
instance-level handler otherwise, and always rethrows the original error. -/
theorem C7_handler_policy (reg : Registry) (cfg : Config) (e2 : Nat) (inst : AxiosInstance)
    (h1 : regGet reg (resolveName cfg.instanceName) = some inst)
    (h2 : truthy cfg.skipErrorHandler = false) :
    (request reg cfg (.err e2)).result = .rejected (.transport e2) ∧
    (request reg cfg (.err e2)).handlerCalls =
      (match cfg.errorConfig.bind (fun ec => ec.errorHandler) with
       | some f => [⟨.callLevel, f, .transport e2, mergeCfg cfg (some inst.defaults)⟩]
       | none =>
           match inst.defaults.errorConfig.bind (fun ec => ec.errorHandler) with
           | some g => [⟨.instanceLevel, g, .transport e2, mergeCfg cfg (some inst.defaults)⟩]
           | none => []) := by
  obtain ⟨hr, hc⟩ := request_err_trace reg cfg e2 inst h1
  refine ⟨hr, ?_⟩
  rw [hc, h2]
  rfl

/-- C8: registering a configuration whose explicit name is already in the
registry throws the duplicate-instance error and leaves the registry
unchanged. -/
theorem C8_duplicate_named (reg : Registry) (cfg : Config) (s : String)
    (h1 : cfg.instanceName = some (.str s))
    (h2 : regHas reg (.str s) = true) :
    defineRequestConfig reg [cfg] = (reg, some (.duplicate (.str s))) := by
  unfold defineRequestConfig defineOne
  rw [h1, resolveName_some]
  simp only [h2, if_true]
  have h3 : ¬(IName.str s = DEFAULT_INSTANCE_NAME ∧ regSize reg = 0) := by
    rintro ⟨hs, -⟩
    exact IName.noConfusion hs
  simp [h3]

/-- C9 (amended): when a default instance exists, an unnamed registration
throws the duplicate-instance error naming the default sentinel — not the
"default already exists, specify instanceName" error, whose branch is
unreachable for a truly unnamed configuration. -/
theorem C9_unnamed_after_default (reg : Registry) (cfg : Config)
    (h1 : regHas reg DEFAULT_INSTANCE_NAME = true)
    (h2 : cfg.instanceName = none) :
    defineOne reg cfg = .err (.duplicate DEFAULT_INSTANCE_NAME) := by
  unfold defineOne
  rw [h2, resolveName_none]
  have hz : ¬ regSize reg = 0 := by
    have := regHas_size_pos reg DEFAULT_INSTANCE_NAME h1
    omega
  simp [h1, hz]

/-- C9 (counterexample): the second unnamed registration after the default
exists produces the duplicate error, not defaultExistsNameRequired. -/
theorem C9_counterexample :
    defineRequestConfig regWithDefault [{}]
      = (regWithDefault, some (.duplicate DEFAULT_INSTANCE_NAME)) ∧
    defineOne regWithDefault {} ≠ .err .defaultExistsNameRequired := by
  exact ⟨rfl, by decide⟩

theorem C9_witness :
    defineOne regWithDefault {} = .err (.duplicate DEFAULT_INSTANCE_NAME) :=
  C9_unnamed_after_default regWithDefault {} (by decide) rfl

/-- C10: whether error handling is skipped is read from the raw call-level
configuration only: an instance default skipErrorHandler = true does not
suppress the call-level handler when the call itself does not skip. -/
theorem C10_skip_is_call_level (reg : Registry) (cfg : Config) (e2 f : Nat)
    (inst : AxiosInstance)
    (h1 : regGet reg (resolveName cfg.instanceName) = some inst)
    (_h2 : inst.defaults.skipErrorHandler = some true)
    (h3 : truthy cfg.skipErrorHandler = false)
    (h4 : cfg.errorConfig.bind (fun ec => ec.errorHandler) = some f) :
    (request reg cfg (.err e2)).handlerCalls =
      [⟨.callLevel, f, .transport e2, mergeCfg cfg (some inst.defaults)⟩] := by
  obtain ⟨-, hc⟩ := request_err_trace reg cfg e2 inst h1
  rw [hc, h3, h4]
  rfl

theorem C1_witness :
    ∃ inst2,
      regGet (request wReg wEphemCfg (.ok ⟨200, 0, 7⟩)).registry
          (resolveName wEphemCfg.instanceName) = some inst2 ∧
      activeHandlers inst2.reqChain = activeHandlers wInst.reqChain ∧
      activeHandlers inst2.respChain = activeHandlers wInst.respChain :=
  C1_chains_restored wReg wEphemCfg (.ok ⟨200, 0, 7⟩) wInst rfl

theorem C4_witness :
    (request wReg {} (.ok ⟨200, 0, 7⟩)).result = .resolved
      (if truthy (match ({} : Config).withFullResponse with
                  | some b => some b
                  | none => wInst.defaults.withFullResponse)
       then .fullResponse ⟨200, 0, 7⟩
       else .dataOnly 7) :=
  C4_withFullResponse wReg {} ⟨200, 0, 7⟩ wInst rfl

theorem C6_witness :
    (request wReg { skipErrorHandler := some true } (.err 42)).result
      = .rejected (.transport 42) ∧
    (request wReg { skipErrorHandler := some true } (.err 42)).handlerCalls = [] :=
  C6_skip wReg { skipErrorHandler := some true } 42 wInst rfl rfl

theorem C7_witness :
    (request wReg {} (.err 42)).result = .rejected (.transport 42) ∧
    (request wReg {} (.err 42)).handlerCalls =
      (match ({} : Config).errorConfig.bind (fun ec => ec.errorHandler) with
       | some f => [⟨.callLevel, f, .transport 42, mergeCfg {} (some wInst.defaults)⟩]
       | none =>
           match wInst.defaults.errorConfig.bind (fun ec => ec.errorHandler) with
           | some g => [⟨.instanceLevel, g, .transport 42, mergeCfg {} (some wInst.defaults)⟩]
           | none => []) :=
  C7_handler_policy wReg {} 42 wInst rfl rfl

theorem C8_witness :
    defineRequestConfig wNamedReg [wNamedCfg] = (wNamedReg, some (.duplicate (.str "a"))) :=
  C8_duplicate_named wNamedReg wNamedCfg "a" rfl (by decide)

theorem C10_witness :
    (request wReg wC10Cfg (.err 3)).handlerCalls
      = [⟨.callLevel, 5, .transport 3, mergeCfg wC10Cfg (some wInst.defaults)⟩] :=
  C10_skip_is_call_level wReg wC10Cfg 3 5 wInst rfl rfl rfl rfl

end SeedFeRequest
